import Mathlib

/-!
Shallow embedding of `gradio_demo.py` (WeAreTheArtMakers/MMAudio): the two
request handlers `video_to_audio` and `text_to_audio`, which wire a
pretrained video/text-to-audio model behind a browser UI.

The handlers themselves are embedded line by line from the source.  The
`mmaudio` library they call (`load_video`, `generate`, `make_video`,
the derived sequence lengths of `SequenceConfig`, `torchaudio.save`,
`Path.mkdir`) is not part of the repository fragment, so those collaborators
are modelled from the spec as an abstract interface (`Collab`) over which
the theorems quantify.  Durations and guidance strengths (Python floats)
are modelled as rationals; tensors, waveforms and model weights are opaque
handles.  Fallible collaborator calls return `Except Err`, and any raised
error aborts the handler, mirroring uncaught Python exceptions.
-/

/-- Opaque handle for a frame tensor (`clip_frames` / `sync_frames`). -/
abbrev Frames := Nat

/-- Opaque handle for a waveform tensor (one element of the `audios` batch). -/
abbrev Waveform := Nat

/-- Opaque handle for the feature-extraction network (`feature_utils`). -/
abbrev FeaturesUtils := Nat

/-- Opaque handle for the model weights loaded by `net.load_weights`. -/
abbrev Weights := Nat

/-- Errors raised by collaborators (video decode, generation, file IO) and by
the handler itself (`audios[0]` on an empty batch). -/
inductive Err where
  | decodeError (msg : String)
  | genError (msg : String)
  | ioError (msg : String)
  | indexError
  deriving DecidableEq, Repr

/-- The request-scoped RNG (`torch.Generator`): either deterministically
seeded via `rng.manual_seed(seed)` or seeded from system entropy via
`rng.seed()`. -/
inductive RNG where
  | manualSeed (s : ℤ)
  | entropySeed (e : ℕ)
  deriving DecidableEq, Repr

/-- The sampler `FlowMatching` built with `min_sigma=0`, inference mode
`euler` and `num_steps=num_steps`,
as constructed at lines 72 and 111 of `gradio_demo.py`. -/
structure FlowMatching where
  min_sigma : ℚ
  inference_mode : String
  num_steps : ℕ
  deriving DecidableEq, Repr

/-- Result of `load_video(video, duration)`: aligned clip/sync frame tensors
and the resolved duration in seconds. -/
structure VideoInfo where
  clip_frames : Frames
  sync_frames : Frames
  duration_sec : ℚ
  deriving DecidableEq, Repr

/-- Modelled from the spec: `SequenceConfig` holds the current duration and
the sampling rate; its latent/clip/sync sequence lengths are derived from
the duration (the derivation functions live in `Collab`, since the class
body is outside the repository fragment). -/
structure SequenceConfig where
  duration : ℚ
  sampling_rate : ℕ
  deriving DecidableEq, Repr

/-- The model runtime state (`net`): opaque weights plus the three sequence
lengths written by `net.update_seq_lengths`. -/
structure NetState where
  weights : Weights
  latent_seq_len : ℕ
  clip_seq_len : ℕ
  sync_seq_len : ℕ
  deriving DecidableEq, Repr

/-- Modelled from the spec: `net.update_seq_lengths(latent, clip, sync)`
overwrites the three sequence lengths and touches nothing else. -/
def NetState.update_seq_lengths (net : NetState) (latent clip sync : ℕ) :
    NetState :=
  { net with latent_seq_len := latent, clip_seq_len := clip,
             sync_seq_len := sync }

/-- The process-wide state shared by all requests: `net`, `feature_utils`,
`seq_cfg` and `output_dir` from the module top level of `gradio_demo.py`. -/
structure Shared where
  net : NetState
  feature_utils : FeaturesUtils
  seq_cfg : SequenceConfig
  output_dir : String
  deriving DecidableEq, Repr

/-- Everything threaded into one `generate(...)` call: the optional frame
conditioning, positive and negative text lists, guidance strength, sampler,
request RNG, and the net state visible to the call. -/
structure GenerateCall where
  clip_frames : Option Frames
  sync_frames : Option Frames
  text : List String
  negative_text : List String
  cfg_strength : ℚ
  fm : FlowMatching
  rng : RNG
  net : NetState
  deriving DecidableEq, Repr

/-- Modelled from the spec: the external collaborators consumed as black
boxes — the video decoder `load_video`, the generation procedure `generate`,
the muxer `make_video`, the lossless audio writer `torchaudio.save`,
directory creation `Path.mkdir`, and the derivation by `SequenceConfig` of the
latent/clip/sync sequence lengths from the current duration. -/
structure Collab where
  load_video : String → ℚ → Except Err VideoInfo
  generate : GenerateCall → FeaturesUtils → Except Err (List Waveform)
  make_video : VideoInfo → String → Waveform → ℕ → Except Err Unit
  save_audio : String → Waveform → ℕ → Except Err Unit
  mkdir : String → Bool → Bool → Except Err Unit
  latent_len : ℚ → ℕ
  clip_len : ℚ → ℕ
  sync_len : ℚ → ℕ

/-- Wall-clock reading used for `datetime.now()`. -/
structure DateTime where
  year : ℕ
  month : ℕ
  day : ℕ
  hour : ℕ
  minute : ℕ
  second : ℕ
  deriving DecidableEq, Repr

/-- Zero-pad the decimal rendering of `n` to width `w`. -/
def padNum (w n : ℕ) : String :=
  let s := toString n
  String.mk (List.replicate (w - s.length) '0') ++ s

/-- The strftime call `datetime.now().strftime` with format
`%Y%m%d_%H%M%S`: the second-resolution
timestamp `YYYYMMDD_HHMMSS` (lines 95 and 129). -/
def timestampString (t : DateTime) : String :=
  padNum 4 t.year ++ padNum 2 t.month ++ padNum 2 t.day ++ "_" ++
    padNum 2 t.hour ++ padNum 2 t.minute ++ padNum 2 t.second

/-- The module-level `output_dir`, a `Path` rooted at `./output/gradio`
(line 39). -/
def initOutputDir : String := "./output/gradio"

/-- Observable events of one request, in program order. -/
inductive Event where
  | loadVideo (video : String) (requested_duration : ℚ)
  | setDuration (d : ℚ)
  | updateSeqLengths (latent clip sync : ℕ)
  | generateEv (gc : GenerateCall)
  | mkdirOutput (path : String) (exist_ok parents : Bool)
  | writeArtifact (path : String)
  deriving DecidableEq, Repr

/-- What a successful request produces: the shared state afterwards, the
event trace, the returned save path, and the waveform `audios[0]`. -/
structure RunResult where
  shared : Shared
  trace : List Event
  retPath : String
  audio : Waveform
  deriving DecidableEq, Repr

/-- Lines 67–71 (and 106–110): construct the request-scoped
`torch.Generator` and seed it — `manual_seed(seed)` when `seed >= 0`,
system entropy via `rng.seed()` otherwise. -/
def resolveRng (seed : ℤ) (entropy : ℕ) : RNG :=
  if 0 ≤ seed then .manualSeed seed else .entropySeed entropy

/-- The net state after `seq_cfg.duration = dur;
net.update_seq_lengths(seq_cfg.latent_seq_len, seq_cfg.clip_seq_len,
seq_cfg.sync_seq_len)` (lines 80–81 and 114–115): all three lengths are
recomputed from the just-written duration. -/
def netAfterUpdate (c : Collab) (net : NetState) (dur : ℚ) : NetState :=
  net.update_seq_lengths (c.latent_len dur) (c.clip_len dur) (c.sync_len dur)

/-- The `generate(...)` call of the video path (lines 84–91): batched clip
and sync frames, singleton prompt lists, and the updated net state. -/
def videoGC (c : Collab) (st : Shared) (rng : RNG) (fm : FlowMatching)
    (vi : VideoInfo) (prompt negative_prompt : String) (cfg_strength : ℚ) :
    GenerateCall :=
  ⟨some vi.clip_frames, some vi.sync_frames, [prompt], [negative_prompt],
    cfg_strength, fm, rng, netAfterUpdate c st.net vi.duration_sec⟩

/-- The `generate(...)` call of the text path (lines 118–125):
`clip_frames = sync_frames = None` and the requested duration. -/
def textGC (c : Collab) (st : Shared) (rng : RNG) (fm : FlowMatching)
    (prompt negative_prompt : String) (cfg_strength duration : ℚ) :
    GenerateCall :=
  ⟨none, none, [prompt], [negative_prompt], cfg_strength, fm, rng,
    netAfterUpdate c st.net duration⟩

/-- The save path `output_dir / current_time_string + .mp4` (line 97). -/
def videoSavePath (st : Shared) (now : DateTime) : String :=
  st.output_dir ++ "/" ++ timestampString now ++ ".mp4"

/-- The save path `output_dir / current_time_string + .flac`
(line 131). -/
def audioSavePath (st : Shared) (now : DateTime) : String :=
  st.output_dir ++ "/" ++ timestampString now ++ ".flac"

/-- The successful outcome of `video_to_audio`: shared state with the
mutated `seq_cfg` and `net`, the event trace in program order, and the
returned `video_save_path` (line 99). -/
def videoResult (c : Collab) (st : Shared) (rng : RNG) (fm : FlowMatching)
    (video : String) (requested : ℚ) (vi : VideoInfo)
    (prompt negative_prompt : String) (cfg_strength : ℚ) (now : DateTime)
    (a : Waveform) : RunResult :=
  { shared := { st with
      seq_cfg := { st.seq_cfg with duration := vi.duration_sec }
      net := netAfterUpdate c st.net vi.duration_sec }
    trace := [.loadVideo video requested,
      .setDuration vi.duration_sec,
      .updateSeqLengths (c.latent_len vi.duration_sec)
        (c.clip_len vi.duration_sec) (c.sync_len vi.duration_sec),
      .generateEv (videoGC c st rng fm vi prompt negative_prompt
        cfg_strength),
      .mkdirOutput st.output_dir true true,
      .writeArtifact (videoSavePath st now)]
    retPath := videoSavePath st now
    audio := a }

/-- The successful outcome of `text_to_audio`: shared state with the
mutated `seq_cfg` and `net`, the event trace in program order, and the
returned `audio_save_path` (line 133). -/
def textResult (c : Collab) (st : Shared) (rng : RNG) (fm : FlowMatching)
    (prompt negative_prompt : String) (cfg_strength duration : ℚ)
    (now : DateTime) (a : Waveform) : RunResult :=
  { shared := { st with
      seq_cfg := { st.seq_cfg with duration := duration }
      net := netAfterUpdate c st.net duration }
    trace := [.setDuration duration,
      .updateSeqLengths (c.latent_len duration) (c.clip_len duration)
        (c.sync_len duration),
      .generateEv (textGC c st rng fm prompt negative_prompt cfg_strength
        duration),
      .mkdirOutput st.output_dir true true,
      .writeArtifact (audioSavePath st now)]
    retPath := audioSavePath st now
    audio := a }

/-- Lines 63–99: the `video_to_audio` handler.  `entropy` stands for the
value system entropy would hand to `rng.seed()`, `now` for the wall clock at
`datetime.now()`.  Line 77 rebinds the local `duration` to the
resolved `video_info.duration_sec` of the decoder; every later use of the duration in the
body refers to that value. -/
def video_to_audio (c : Collab) (st : Shared) (entropy : ℕ) (now : DateTime)
    (video : String) (prompt : String) (negative_prompt : String) (seed : ℤ)
    (num_steps : ℕ) (cfg_strength : ℚ) (duration : ℚ) :
    Except Err RunResult :=
  let rng : RNG := resolveRng seed entropy
  let fm : FlowMatching := ⟨0, "euler", num_steps⟩
  match c.load_video video duration with
  | .error e => .error e
  | .ok video_info =>
    match c.generate
        (videoGC c st rng fm video_info prompt negative_prompt cfg_strength)
        st.feature_utils with
    | .error e => .error e
    | .ok [] => .error .indexError
    | .ok (audio :: _) =>
      match c.mkdir st.output_dir true true with
      | .error e => .error e
      | .ok _ =>
        match c.make_video video_info (videoSavePath st now) audio
            st.seq_cfg.sampling_rate with
        | .error e => .error e
        | .ok _ =>
          .ok (videoResult c st rng fm video duration video_info prompt
            negative_prompt cfg_strength now audio)

/-- Lines 102–133: the `text_to_audio` handler. -/
def text_to_audio (c : Collab) (st : Shared) (entropy : ℕ) (now : DateTime)
    (prompt : String) (negative_prompt : String) (seed : ℤ)
    (num_steps : ℕ) (cfg_strength : ℚ) (duration : ℚ) :
    Except Err RunResult :=
  let rng : RNG := resolveRng seed entropy
  let fm : FlowMatching := ⟨0, "euler", num_steps⟩
  match c.generate
      (textGC c st rng fm prompt negative_prompt cfg_strength duration)
      st.feature_utils with
  | .error e => .error e
  | .ok [] => .error .indexError
  | .ok (audio :: _) =>
    match c.mkdir st.output_dir true true with
    | .error e => .error e
    | .ok _ =>
      match c.save_audio (audioSavePath st now) audio
          st.seq_cfg.sampling_rate with
      | .error e => .error e
      | .ok _ =>
        .ok (textResult c st rng fm prompt negative_prompt cfg_strength
          duration now audio)

/-- Characterization of a successful `video_to_audio` run: every `.ok`
outcome arises from a successful decode, generation with a nonempty batch,
directory creation and mux, and equals `videoResult` on those values. -/
theorem video_to_audio_ok {c : Collab} {st : Shared} {entropy : ℕ}
    {now : DateTime} {video prompt negative_prompt : String} {seed : ℤ}
    {num_steps : ℕ} {cfg_strength duration : ℚ} {r : RunResult}
    (h : video_to_audio c st entropy now video prompt negative_prompt seed
      num_steps cfg_strength duration = .ok r) :
    ∃ vi a rest,
      c.load_video video duration = .ok vi ∧
      c.generate (videoGC c st (resolveRng seed entropy)
        ⟨0, "euler", num_steps⟩ vi prompt negative_prompt cfg_strength)
        st.feature_utils = .ok (a :: rest) ∧
      c.mkdir st.output_dir true true = .ok () ∧
      c.make_video vi (videoSavePath st now) a st.seq_cfg.sampling_rate
        = .ok () ∧
      r = videoResult c st (resolveRng seed entropy) ⟨0, "euler", num_steps⟩
        video duration vi prompt negative_prompt cfg_strength now a := by
  cases hlv : c.load_video video duration with
  | error e => simp [video_to_audio, hlv] at h
  | ok vi =>
    cases hgen : c.generate (videoGC c st (resolveRng seed entropy)
        ⟨0, "euler", num_steps⟩ vi prompt negative_prompt cfg_strength)
        st.feature_utils with
    | error e => simp [video_to_audio, hlv, hgen] at h
    | ok audios =>
      cases audios with
      | nil => simp [video_to_audio, hlv, hgen] at h
      | cons a rest =>
        cases hmk : c.mkdir st.output_dir true true with
        | error e => simp [video_to_audio, hlv, hgen, hmk] at h
        | ok u =>
          cases hmv : c.make_video vi (videoSavePath st now) a
              st.seq_cfg.sampling_rate with
          | error e => simp [video_to_audio, hlv, hgen, hmk, hmv] at h
          | ok u2 =>
            simp only [video_to_audio, hlv, hgen, hmk, hmv,
              Except.ok.injEq] at h
            cases u; cases u2
            exact ⟨vi, a, rest, by simp [hlv], by simp [hgen], by simp [hmk],
              by simp [hmv], h.symm⟩


/-- Characterization of a successful `text_to_audio` run: every `.ok`
outcome arises from a successful generation with a nonempty batch,
directory creation and audio write, and equals `textResult` on those
values. -/
theorem text_to_audio_ok {c : Collab} {st : Shared} {entropy : ℕ}
    {now : DateTime} {prompt negative_prompt : String} {seed : ℤ}
    {num_steps : ℕ} {cfg_strength duration : ℚ} {r : RunResult}
    (h : text_to_audio c st entropy now prompt negative_prompt seed
      num_steps cfg_strength duration = .ok r) :
    ∃ a rest,
      c.generate (textGC c st (resolveRng seed entropy)
        ⟨0, "euler", num_steps⟩ prompt negative_prompt cfg_strength duration)
        st.feature_utils = .ok (a :: rest) ∧
      c.mkdir st.output_dir true true = .ok () ∧
      c.save_audio (audioSavePath st now) a st.seq_cfg.sampling_rate
        = .ok () ∧
      r = textResult c st (resolveRng seed entropy) ⟨0, "euler", num_steps⟩
        prompt negative_prompt cfg_strength duration now a := by
  cases hgen : c.generate (textGC c st (resolveRng seed entropy)
      ⟨0, "euler", num_steps⟩ prompt negative_prompt cfg_strength duration)
      st.feature_utils with
  | error e => simp [text_to_audio, hgen] at h
  | ok audios =>
    cases audios with
    | nil => simp [text_to_audio, hgen] at h
    | cons a rest =>
      cases hmk : c.mkdir st.output_dir true true with
      | error e => simp [text_to_audio, hgen, hmk] at h
      | ok u =>
        cases hsv : c.save_audio (audioSavePath st now) a
            st.seq_cfg.sampling_rate with
        | error e => simp [text_to_audio, hgen, hmk, hsv] at h
        | ok u2 =>
          simp only [text_to_audio, hgen, hmk, hsv, Except.ok.injEq] at h
          cases u; cases u2
          exact ⟨a, rest, by simp [hgen], by simp [hmk], by simp [hsv],
            h.symm⟩

/-- Idempotence of the sequence-length update: re-running lines 80–81 with
the same duration leaves the net unchanged. -/
theorem netAfterUpdate_idem (c : Collab) (n : NetState) (d : ℚ) :
    netAfterUpdate c (netAfterUpdate c n d) d = netAfterUpdate c n d := rfl

/-- A concrete collaborator used to exercise the handlers on concrete
inputs: the decoder reports a 3-second video, generation returns a
one-element batch whose waveform encodes the RNG state. -/
def testCollab : Collab where
  load_video _ _ := .ok ⟨5, 7, 3⟩
  generate gc _ := .ok (gc.text.map fun _ => match gc.rng with
    | .manualSeed s => s.toNat
    | .entropySeed e => e + 1000)
  make_video _ _ _ _ := .ok ()
  save_audio _ _ _ := .ok ()
  mkdir _ _ _ := .ok ()
  latent_len d := (d.num * 2).toNat
  clip_len d := (d.num * 3).toNat
  sync_len d := (d.num * 4).toNat

/-- Shared state used for concrete runs. -/
def testShared : Shared := ⟨⟨99, 0, 0, 0⟩, 42, ⟨0, 44100⟩, initOutputDir⟩

/-- Wall clock used for concrete runs. -/
def testNow : DateTime := ⟨2026, 10, 12, 13, 59, 7⟩

/-- The concrete outcome of `video_to_audio` on the test fixture, seed 3. -/
def testVideoRes : RunResult :=
  videoResult testCollab testShared (.manualSeed 3) ⟨0, "euler", 25⟩
    "v.mp4" 8 ⟨5, 7, 3⟩ "p" "music" 4 testNow 3

/-- The concrete outcome of `text_to_audio` on the test fixture, seed 3. -/
def testTextRes : RunResult :=
  textResult testCollab testShared (.manualSeed 3) ⟨0, "euler", 25⟩
    "p" "music" 4 8 testNow 3

/-- The two handlers evaluate on the fixture to the expected outcomes. -/
theorem testRuns_eval :
    video_to_audio testCollab testShared 0 testNow "v.mp4" "p" "music"
        3 25 4 8 = .ok testVideoRes ∧
    text_to_audio testCollab testShared 0 testNow "p" "music"
        3 25 4 8 = .ok testTextRes := by
  exact ⟨by rfl, by rfl⟩

/-- Claim C1: for a fixed seed ≥ 0 and identical other parameters, repeated
calls to either handler produce bit-identical waveform output: the run does
not depend on the entropy that system randomness would feed `rng.seed()`,
and a second call started from the shared state left by a first call (at
any later wall clock) yields the same waveform, because the request-scoped
RNG is deterministically seeded with `manual_seed(seed)`. -/
theorem C1_fixed_seed_determinism (c : Collab) (st : Shared) (e1 e2 : ℕ)
    (now now2 : DateTime) (video prompt negative_prompt : String) (seed : ℤ)
    (num_steps : ℕ) (cfg_strength duration : ℚ) (r1 r2 s1 s2 : RunResult)
    (hseed : 0 ≤ seed) :
    (video_to_audio c st e1 now video prompt negative_prompt seed num_steps
        cfg_strength duration =
      video_to_audio c st e2 now video prompt negative_prompt seed num_steps
        cfg_strength duration) ∧
    (text_to_audio c st e1 now prompt negative_prompt seed num_steps
        cfg_strength duration =
      text_to_audio c st e2 now prompt negative_prompt seed num_steps
        cfg_strength duration) ∧
    (video_to_audio c st e1 now video prompt negative_prompt seed num_steps
        cfg_strength duration = .ok r1 →
      video_to_audio c r1.shared e2 now2 video prompt negative_prompt seed
        num_steps cfg_strength duration = .ok r2 →
      r2.audio = r1.audio) ∧
    (text_to_audio c st e1 now prompt negative_prompt seed num_steps
        cfg_strength duration = .ok s1 →
      text_to_audio c s1.shared e2 now2 prompt negative_prompt seed
        num_steps cfg_strength duration = .ok s2 →
      s2.audio = s1.audio) := by
  have hres1 : resolveRng seed e1 = .manualSeed seed := by
    simp [resolveRng, hseed]
  have hres2 : resolveRng seed e2 = .manualSeed seed := by
    simp [resolveRng, hseed]
  refine ⟨?_, ?_, ?_, ?_⟩
  · unfold video_to_audio
    rw [hres1, hres2]
  · unfold text_to_audio
    rw [hres1, hres2]
  · intro h1 h2
    obtain ⟨vi, a, rest, hlv, hgen, hmk, hmv, hr1⟩ := video_to_audio_ok h1
    obtain ⟨vi', a', rest', hlv', hgen', hmk', hmv', hr2⟩ :=
      video_to_audio_ok h2
    have hvi : vi = vi' := by
      rw [hlv] at hlv'
      injection hlv'
    subst hvi
    rw [hr1] at hgen'
    simp only [videoResult, videoGC, netAfterUpdate_idem, hres1, hres2]
      at hgen hgen'
    have := hgen.symm.trans hgen'
    injection this with h'
    injection h' with ha
    rw [hr2, hr1]
    simp [videoResult, ha]
  · intro h1 h2
    obtain ⟨a, rest, hgen, hmk, hsv, hr1⟩ := text_to_audio_ok h1
    obtain ⟨a', rest', hgen', hmk', hsv', hr2⟩ := text_to_audio_ok h2
    rw [hr1] at hgen'
    simp only [textResult, textGC, netAfterUpdate_idem, hres1, hres2]
      at hgen hgen'
    have := hgen.symm.trans hgen'
    injection this with h'
    injection h' with ha
    rw [hr2, hr1]
    simp [textResult, ha]

/-- With a negative seed, seeding resolves to the system-entropy draw. -/
theorem resolveRng_neg {seed : ℤ} (e : ℕ) (h : seed < 0) :
    resolveRng seed e = .entropySeed e := by
  simp [resolveRng, not_le.mpr h]

/-- Overwriting the RNG of a video-path generate call. -/
theorem videoGC_set_rng (c : Collab) (st : Shared) (r r' : RNG)
    (fm : FlowMatching) (vi : VideoInfo) (p np : String) (cs : ℚ) :
    { videoGC c st r fm vi p np cs with rng := r' } =
      videoGC c st r' fm vi p np cs := rfl

/-- Overwriting the RNG of a text-path generate call. -/
theorem textGC_set_rng (c : Collab) (st : Shared) (r r' : RNG)
    (fm : FlowMatching) (p np : String) (cs d : ℚ) :
    { textGC c st r fm p np cs d with rng := r' } =
      textGC c st r' fm p np cs d := rfl

/-- Claim C2: with seed < 0 the handlers seed the request RNG from system
entropy (`rng.seed()`) — the RNG recorded at the generate call is the
entropy draw — while with seed ≥ 0 they deterministically seed it with
`manual_seed(seed)`; consequently two calls whose entropy draws differ pass
distinct RNGs to `generate`, and whenever generation separates distinct
entropy seeds (the formal counterpart of "with overwhelming probability")
their waveform outputs differ. -/
theorem C2_negative_seed_random (c : Collab) (st : Shared) (e1 e2 : ℕ)
    (now : DateTime) (video prompt negative_prompt : String)
    (seed : ℤ) (num_steps : ℕ) (cfg_strength duration : ℚ)
    (r1 r2 s1 s2 : RunResult) :
    (seed < 0 →
      video_to_audio c st e1 now video prompt negative_prompt seed num_steps
        cfg_strength duration = .ok r1 →
      ∀ gc, Event.generateEv gc ∈ r1.trace → gc.rng = .entropySeed e1) ∧
    (seed < 0 →
      text_to_audio c st e1 now prompt negative_prompt seed num_steps
        cfg_strength duration = .ok s1 →
      ∀ gc, Event.generateEv gc ∈ s1.trace → gc.rng = .entropySeed e1) ∧
    (0 ≤ seed →
      video_to_audio c st e1 now video prompt negative_prompt seed num_steps
        cfg_strength duration = .ok r1 →
      ∀ gc, Event.generateEv gc ∈ r1.trace → gc.rng = .manualSeed seed) ∧
    (0 ≤ seed →
      text_to_audio c st e1 now prompt negative_prompt seed num_steps
        cfg_strength duration = .ok s1 →
      ∀ gc, Event.generateEv gc ∈ s1.trace → gc.rng = .manualSeed seed) ∧
    (seed < 0 → e1 ≠ e2 →
      (∀ (gc : GenerateCall) (e e' : ℕ) (fu : FeaturesUtils)
        (a : Waveform) (rest : List Waveform) (a' : Waveform)
        (rest' : List Waveform), e ≠ e' →
        c.generate { gc with rng := RNG.entropySeed e } fu = .ok (a :: rest) →
        c.generate { gc with rng := RNG.entropySeed e' } fu
          = .ok (a' :: rest') →
        a ≠ a') →
      video_to_audio c st e1 now video prompt negative_prompt seed num_steps
        cfg_strength duration = .ok r1 →
      video_to_audio c st e2 now video prompt negative_prompt seed num_steps
        cfg_strength duration = .ok r2 →
      r1.audio ≠ r2.audio) ∧
    (seed < 0 → e1 ≠ e2 →
      (∀ (gc : GenerateCall) (e e' : ℕ) (fu : FeaturesUtils)
        (a : Waveform) (rest : List Waveform) (a' : Waveform)
        (rest' : List Waveform), e ≠ e' →
        c.generate { gc with rng := RNG.entropySeed e } fu = .ok (a :: rest) →
        c.generate { gc with rng := RNG.entropySeed e' } fu
          = .ok (a' :: rest') →
        a ≠ a') →
      text_to_audio c st e1 now prompt negative_prompt seed num_steps
        cfg_strength duration = .ok s1 →
      text_to_audio c st e2 now prompt negative_prompt seed num_steps
        cfg_strength duration = .ok s2 →
      s1.audio ≠ s2.audio) := by
  refine ⟨?_, ?_, ?_, ?_, ?_, ?_⟩
  · intro hs h1 gc hmem
    obtain ⟨vi, a, rest, hlv, hgen, hmk, hmv, hr1⟩ := video_to_audio_ok h1
    subst hr1
    simp only [videoResult, List.mem_cons, List.not_mem_nil, or_false]
      at hmem
    rcases hmem with h | h | h | h | h | h <;>
      simp_all [videoGC, resolveRng_neg _ hs]
  · intro hs h1 gc hmem
    obtain ⟨a, rest, hgen, hmk, hsv, hr1⟩ := text_to_audio_ok h1
    subst hr1
    simp only [textResult, List.mem_cons, List.not_mem_nil, or_false]
      at hmem
    rcases hmem with h | h | h | h | h <;>
      simp_all [textGC, resolveRng_neg _ hs]
  · intro hs h1 gc hmem
    obtain ⟨vi, a, rest, hlv, hgen, hmk, hmv, hr1⟩ := video_to_audio_ok h1
    subst hr1
    simp only [videoResult, List.mem_cons, List.not_mem_nil, or_false]
      at hmem
    rcases hmem with h | h | h | h | h | h <;>
      simp_all [videoGC, resolveRng, hs]
  · intro hs h1 gc hmem
    obtain ⟨a, rest, hgen, hmk, hsv, hr1⟩ := text_to_audio_ok h1
    subst hr1
    simp only [textResult, List.mem_cons, List.not_mem_nil, or_false]
      at hmem
    rcases hmem with h | h | h | h | h <;>
      simp_all [textGC, resolveRng, hs]
  · intro hs hne hsens h1 h2
    obtain ⟨vi, a, rest, hlv, hgen, hmk, hmv, hr1⟩ := video_to_audio_ok h1
    obtain ⟨vi', a', rest', hlv', hgen', hmk', hmv', hr2⟩ :=
      video_to_audio_ok h2
    have hvi : vi = vi' := by
      rw [hlv] at hlv'
      injection hlv'
    subst hvi
    rw [resolveRng_neg e1 hs] at hgen
    rw [resolveRng_neg e2 hs] at hgen'
    rw [← videoGC_set_rng c st (.entropySeed e1) (.entropySeed e1)] at hgen
    rw [← videoGC_set_rng c st (.entropySeed e1) (.entropySeed e2)] at hgen'
    have hne' := hsens (videoGC c st (.entropySeed e1)
      ⟨0, "euler", num_steps⟩ vi prompt negative_prompt cfg_strength)
      e1 e2 st.feature_utils a rest a' rest' hne hgen hgen'
    rw [hr1, hr2]
    simpa [videoResult] using hne'
  · intro hs hne hsens h1 h2
    obtain ⟨a, rest, hgen, hmk, hsv, hr1⟩ := text_to_audio_ok h1
    obtain ⟨a', rest', hgen', hmk', hsv', hr2⟩ := text_to_audio_ok h2
    rw [resolveRng_neg e1 hs] at hgen
    rw [resolveRng_neg e2 hs] at hgen'
    rw [← textGC_set_rng c st (.entropySeed e1) (.entropySeed e1)] at hgen
    rw [← textGC_set_rng c st (.entropySeed e1) (.entropySeed e2)] at hgen'
    have hne' := hsens (textGC c st (.entropySeed e1)
      ⟨0, "euler", num_steps⟩ prompt negative_prompt cfg_strength duration)
      e1 e2 st.feature_utils a rest a' rest' hne hgen hgen'
    rw [hr1, hr2]
    simpa [textResult] using hne'

/-- Witness for C1: seed 3 ≥ 0, and on the concrete fixture the video
handler gives identical results under two different entropy draws. -/
theorem C1_fixed_seed_determinism_witness :
    (0 : ℤ) ≤ 3 ∧
    video_to_audio testCollab testShared 0 testNow "v.mp4" "p" "music" 3 25
        4 8 =
      video_to_audio testCollab testShared 1 testNow "v.mp4" "p" "music" 3
        25 4 8 :=
  ⟨by decide,
    (C1_fixed_seed_determinism testCollab testShared 0 1 testNow testNow
      "v.mp4" "p" "music" 3 25 4 8 testVideoRes testVideoRes testTextRes
      testTextRes (by decide)).1⟩

/-- The concrete outcome of `video_to_audio` on the test fixture when the
RNG is entropy-seeded with `e`. -/
def testVideoResE (e : ℕ) : RunResult :=
  videoResult testCollab testShared (.entropySeed e) ⟨0, "euler", 25⟩
    "v.mp4" 8 ⟨5, 7, 3⟩ "p" "music" 4 testNow (e + 1000)

/-- Witness for C2: with seed −1 and entropy draws 0 ≠ 1, the two concrete
runs succeed and their waveforms differ. -/
theorem C2_negative_seed_random_witness :
    video_to_audio testCollab testShared 0 testNow "v.mp4" "p" "music" (-1)
        25 4 8 = .ok (testVideoResE 0) ∧
    video_to_audio testCollab testShared 1 testNow "v.mp4" "p" "music" (-1)
        25 4 8 = .ok (testVideoResE 1) ∧
    (testVideoResE 0).audio ≠ (testVideoResE 1).audio :=
  ⟨rfl, rfl,
    (C2_negative_seed_random testCollab testShared 0 1 testNow "v.mp4" "p"
        "music" (-1) 25 4 8 (testVideoResE 0) (testVideoResE 1)
        (testVideoResE 0) (testVideoResE 1)).2.2.2.2.1
      (by decide) (by decide)
      (fun gc e e' fu a rest a' rest' hne h1 h2 => by
        simp [testCollab] at h1 h2
        cases ht : gc.text with
        | nil => rw [ht] at h1; simp at h1
        | cons x xs =>
          rw [ht] at h1 h2
          simp at h1 h2
          obtain ⟨rfl, -⟩ := h1
          obtain ⟨rfl, -⟩ := h2
          exact fun hc => hne (Nat.add_right_cancel hc))
      (by rfl) (by rfl)⟩

/-- Claim C3: in every successful request of either handler, the write of
the resolved duration into the shared `SequenceConfig` and the push of the
derived latent/clip/sync sequence lengths into the net occur strictly
before the `generate` call, and every `generate` call in the trace sees
exactly the net state derived from the duration of this request — never stale
configuration from a prior request. -/
theorem C3_seq_cfg_before_generate (c : Collab) (st : Shared) (entropy : ℕ)
    (now : DateTime) (video prompt negative_prompt : String) (seed : ℤ)
    (num_steps : ℕ) (cfg_strength duration : ℚ) (r s : RunResult) :
    (∀ vi, c.load_video video duration = .ok vi →
      video_to_audio c st entropy now video prompt negative_prompt seed
        num_steps cfg_strength duration = .ok r →
      (∃ i j k, i < j ∧ j < k ∧
        r.trace.get? i = some (.setDuration vi.duration_sec) ∧
        r.trace.get? j = some (.updateSeqLengths
          (c.latent_len vi.duration_sec) (c.clip_len vi.duration_sec)
          (c.sync_len vi.duration_sec)) ∧
        (∃ gc, r.trace.get? k = some (.generateEv gc) ∧
          gc.net = netAfterUpdate c st.net vi.duration_sec)) ∧
      (∀ gc, Event.generateEv gc ∈ r.trace →
        gc.net = netAfterUpdate c st.net vi.duration_sec)) ∧
    (text_to_audio c st entropy now prompt negative_prompt seed num_steps
        cfg_strength duration = .ok s →
      (∃ i j k, i < j ∧ j < k ∧
        s.trace.get? i = some (.setDuration duration) ∧
        s.trace.get? j = some (.updateSeqLengths (c.latent_len duration)
          (c.clip_len duration) (c.sync_len duration)) ∧
        (∃ gc, s.trace.get? k = some (.generateEv gc) ∧
          gc.net = netAfterUpdate c st.net duration)) ∧
      (∀ gc, Event.generateEv gc ∈ s.trace →
        gc.net = netAfterUpdate c st.net duration)) := by
  constructor
  · intro vi hlv h
    obtain ⟨vi', a, rest, hlv', hgen, hmk, hmv, hr⟩ := video_to_audio_ok h
    have hvi : vi = vi' := by
      rw [hlv] at hlv'
      injection hlv'
    subst hvi
    subst hr
    constructor
    · exact ⟨1, 2, 3, by norm_num, by norm_num, rfl, rfl,
        ⟨_, rfl, rfl⟩⟩
    · intro gc hmem
      simp only [videoResult, List.mem_cons, List.not_mem_nil, or_false]
        at hmem
      rcases hmem with h' | h' | h' | h' | h' | h' <;>
        simp_all [videoGC]
  · intro h
    obtain ⟨a, rest, hgen, hmk, hsv, hr⟩ := text_to_audio_ok h
    subst hr
    constructor
    · exact ⟨0, 1, 2, by norm_num, by norm_num, rfl, rfl,
        ⟨_, rfl, rfl⟩⟩
    · intro gc hmem
      simp only [textResult, List.mem_cons, List.not_mem_nil, or_false]
        at hmem
      rcases hmem with h' | h' | h' | h' | h' <;>
        simp_all [textGC]

/-- Witness for C3 on the concrete fixture. -/
theorem C3_seq_cfg_before_generate_witness :
    testCollab.load_video "v.mp4" 8 = .ok ⟨5, 7, 3⟩ ∧
    video_to_audio testCollab testShared 0 testNow "v.mp4" "p" "music" 3 25
        4 8 = .ok testVideoRes ∧
    ((∃ i j k, i < j ∧ j < k ∧
      testVideoRes.trace.get? i = some (.setDuration (3 : ℚ)) ∧
      testVideoRes.trace.get? j = some (.updateSeqLengths
        (testCollab.latent_len 3) (testCollab.clip_len 3)
        (testCollab.sync_len 3)) ∧
      (∃ gc, testVideoRes.trace.get? k = some (.generateEv gc) ∧
        gc.net = netAfterUpdate testCollab testShared.net 3)) ∧
    (∀ gc, Event.generateEv gc ∈ testVideoRes.trace →
      gc.net = netAfterUpdate testCollab testShared.net 3)) :=
  ⟨by rfl, by rfl,
    (C3_seq_cfg_before_generate testCollab testShared 0 testNow "v.mp4" "p"
        "music" 3 25 4 8 testVideoRes testTextRes).1 ⟨5, 7, 3⟩ (by rfl)
      (by rfl)⟩

/-- Claim C4: in `video_to_audio` the duration used for sequence
configuration and generation is the resolved decoder output
`video_info.duration_sec`, not the requested duration; in particular, when
the decoder clips a short video (resolved = min of actual length and
request) the duration used for generation is the actual video length. -/
theorem C4_video_resolved_duration (c : Collab) (st : Shared) (entropy : ℕ)
    (now : DateTime) (video prompt negative_prompt : String) (seed : ℤ)
    (num_steps : ℕ) (cfg_strength duration : ℚ) (r : RunResult)
    (vi : VideoInfo) (hlv : c.load_video video duration = .ok vi)
    (h : video_to_audio c st entropy now video prompt negative_prompt seed
      num_steps cfg_strength duration = .ok r) :
    r.shared.seq_cfg.duration = vi.duration_sec ∧
    (∀ gc, Event.generateEv gc ∈ r.trace →
      gc.net = netAfterUpdate c st.net vi.duration_sec) ∧
    (vi.duration_sec ≠ duration →
      r.shared.seq_cfg.duration ≠ duration) ∧
    (∀ actual : ℚ, vi.duration_sec = min actual duration →
      actual < duration → r.shared.seq_cfg.duration = actual) := by
  obtain ⟨vi', a, rest, hlv', hgen, hmk, hmv, hr⟩ := video_to_audio_ok h
  have hvi : vi = vi' := by
    rw [hlv] at hlv'
    injection hlv'
  subst hvi
  subst hr
  refine ⟨rfl, ?_, ?_, ?_⟩
  · intro gc hmem
    simp only [videoResult, List.mem_cons, List.not_mem_nil, or_false]
      at hmem
    rcases hmem with h' | h' | h' | h' | h' | h' <;>
      simp_all [videoGC]
  · intro hne
    simpa [videoResult] using hne
  · intro actual hmin hlt
    simp only [videoResult]
    rw [hmin, min_eq_left (le_of_lt hlt)]

/-- Witness for C4: the fixture decoder reports a 3-second video against
a request of 8 seconds, and generation uses 3. -/
theorem C4_video_resolved_duration_witness :
    testCollab.load_video "v.mp4" 8 = .ok ⟨5, 7, 3⟩ ∧
    video_to_audio testCollab testShared 0 testNow "v.mp4" "p" "music" 3 25
        4 8 = .ok testVideoRes ∧
    testVideoRes.shared.seq_cfg.duration = (⟨5, 7, 3⟩ : VideoInfo).duration_sec :=
  ⟨by rfl, by rfl,
    (C4_video_resolved_duration testCollab testShared 0 testNow "v.mp4" "p"
      "music" 3 25 4 8 testVideoRes ⟨5, 7, 3⟩ (by rfl) (by rfl)).1⟩

/-- Recognizer for artifact-write events. -/
def isWriteEv : Event → Bool
  | .writeArtifact _ => true
  | _ => false

/-- Claim C5: every successful request writes exactly one artifact, under
the configured output directory, named by the second-resolution timestamp
`YYYYMMDD_HHMMSS` with extension `.mp4` on the video path and `.flac` on
the text path; the directory-creation call (idempotent, with parents)
precedes the write, and the handler returns the path of the written
artifact. -/
theorem C5_output_artifact (c : Collab) (st : Shared) (entropy : ℕ)
    (now : DateTime) (video prompt negative_prompt : String) (seed : ℤ)
    (num_steps : ℕ) (cfg_strength duration : ℚ) (r s : RunResult) :
    (video_to_audio c st entropy now video prompt negative_prompt seed
        num_steps cfg_strength duration = .ok r →
      r.retPath = st.output_dir ++ "/" ++ timestampString now ++ ".mp4" ∧
      r.trace.filter isWriteEv = [.writeArtifact r.retPath] ∧
      (∃ i j, i < j ∧
        r.trace.get? i = some (.mkdirOutput st.output_dir true true) ∧
        r.trace.get? j = some (.writeArtifact r.retPath)) ∧
      (st.output_dir = initOutputDir →
        r.retPath = initOutputDir ++ "/" ++ timestampString now ++ ".mp4"))
    ∧
    (text_to_audio c st entropy now prompt negative_prompt seed num_steps
        cfg_strength duration = .ok s →
      s.retPath = st.output_dir ++ "/" ++ timestampString now ++ ".flac" ∧
      s.trace.filter isWriteEv = [.writeArtifact s.retPath] ∧
      (∃ i j, i < j ∧
        s.trace.get? i = some (.mkdirOutput st.output_dir true true) ∧
        s.trace.get? j = some (.writeArtifact s.retPath)) ∧
      (st.output_dir = initOutputDir →
        s.retPath = initOutputDir ++ "/" ++ timestampString now ++
          ".flac")) := by
  constructor
  · intro h
    obtain ⟨vi, a, rest, hlv, hgen, hmk, hmv, hr⟩ := video_to_audio_ok h
    subst hr
    refine ⟨rfl, ?_, ⟨4, 5, by norm_num, rfl, rfl⟩, ?_⟩
    · simp [videoResult, isWriteEv, List.filter]
    · intro hdir
      simp [videoResult, videoSavePath, hdir]
  · intro h
    obtain ⟨a, rest, hgen, hmk, hsv, hr⟩ := text_to_audio_ok h
    subst hr
    refine ⟨rfl, ?_, ⟨3, 4, by norm_num, rfl, rfl⟩, ?_⟩
    · simp [textResult, isWriteEv, List.filter]
    · intro hdir
      simp [textResult, audioSavePath, hdir]

/-- Witness for C5 on the concrete fixture: the returned path is the
timestamped `.flac` under `./output/gradio`. -/
theorem C5_output_artifact_witness :
    text_to_audio testCollab testShared 0 testNow "p" "music" 3 25 4 8 =
      .ok testTextRes ∧
    testTextRes.retPath = "./output/gradio/20261012_135907.flac" :=
  ⟨by rfl, by
    have := ((C5_output_artifact testCollab testShared 0 testNow "v.mp4"
      "p" "music" 3 25 4 8 testVideoRes testTextRes).2 (by rfl)).1
    simpa [testShared, initOutputDir, timestampString, testNow,
      padNum] using this⟩

/-- Claim C6: `text_to_audio` never invokes any video-decode path — its
outcome is unchanged under arbitrary replacement of the decoder, its trace
contains no decode event, and the conditioning frames handed to `generate`
are always `none`. -/
theorem C6_text_no_video_decode (c : Collab) (st : Shared) (entropy : ℕ)
    (now : DateTime) (prompt negative_prompt : String) (seed : ℤ)
    (num_steps : ℕ) (cfg_strength duration : ℚ) (s : RunResult) :
    (∀ f, text_to_audio { c with load_video := f } st entropy now prompt
        negative_prompt seed num_steps cfg_strength duration =
      text_to_audio c st entropy now prompt negative_prompt seed num_steps
        cfg_strength duration) ∧
    (text_to_audio c st entropy now prompt negative_prompt seed num_steps
        cfg_strength duration = .ok s →
      (∀ v d, Event.loadVideo v d ∉ s.trace) ∧
      (∀ gc, Event.generateEv gc ∈ s.trace →
        gc.clip_frames = none ∧ gc.sync_frames = none)) := by
  constructor
  · intro f
    rfl
  · intro h
    obtain ⟨a, rest, hgen, hmk, hsv, hr⟩ := text_to_audio_ok h
    subst hr
    constructor
    · intro v d hmem
      simp [textResult] at hmem
    · intro gc hmem
      simp only [textResult, List.mem_cons, List.not_mem_nil, or_false]
        at hmem
      rcases hmem with h' | h' | h' | h' | h' <;>
        simp_all [textGC]

/-- Witness for C6 on the concrete fixture. -/
theorem C6_text_no_video_decode_witness :
    text_to_audio testCollab testShared 0 testNow "p" "music" 3 25 4 8 =
      .ok testTextRes ∧
    (∀ v d, Event.loadVideo v d ∉ testTextRes.trace) :=
  ⟨by rfl,
    ((C6_text_no_video_decode testCollab testShared 0 testNow "p" "music"
      3 25 4 8 testTextRes).2 (by rfl)).1⟩

/-- Claim C7: in both handlers the generation call has exactly the shape
the spec gives —
a flow-matching sampler with `min_sigma = 0`, integration
scheme `euler` and the requested step count; singleton positive and negative
prompt lists; the requested guidance strength; a freshly constructed
request-scoped RNG; the decoded frames of the video path (or `none` on the
text
path); and, whenever generation honours the batch contract (one waveform
per prompt), an output batch of exactly one waveform. -/
theorem C7_generate_call_shape (c : Collab) (st : Shared) (entropy : ℕ)
    (now : DateTime) (video prompt negative_prompt : String) (seed : ℤ)
    (num_steps : ℕ) (cfg_strength duration : ℚ) (r s : RunResult)
    (hbatch : ∀ gc fu audios, c.generate gc fu = .ok audios →
      audios.length = gc.text.length) :
    (video_to_audio c st entropy now video prompt negative_prompt seed
        num_steps cfg_strength duration = .ok r →
      ∃ gc, Event.generateEv gc ∈ r.trace ∧
        gc.fm = ⟨0, "euler", num_steps⟩ ∧
        gc.text = [prompt] ∧ gc.negative_text = [negative_prompt] ∧
        gc.cfg_strength = cfg_strength ∧
        gc.rng = resolveRng seed entropy ∧
        (∃ vi, c.load_video video duration = .ok vi ∧
          gc.clip_frames = some vi.clip_frames ∧
          gc.sync_frames = some vi.sync_frames) ∧
        c.generate gc st.feature_utils = .ok [r.audio]) ∧
    (text_to_audio c st entropy now prompt negative_prompt seed num_steps
        cfg_strength duration = .ok s →
      ∃ gc, Event.generateEv gc ∈ s.trace ∧
        gc.fm = ⟨0, "euler", num_steps⟩ ∧
        gc.text = [prompt] ∧ gc.negative_text = [negative_prompt] ∧
        gc.cfg_strength = cfg_strength ∧
        gc.rng = resolveRng seed entropy ∧
        gc.clip_frames = none ∧ gc.sync_frames = none ∧
        c.generate gc st.feature_utils = .ok [s.audio]) := by
  constructor
  · intro h
    obtain ⟨vi, a, rest, hlv, hgen, hmk, hmv, hr⟩ := video_to_audio_ok h
    have hlen := hbatch _ _ _ hgen
    simp only [videoGC, List.length_cons, List.length_singleton] at hlen
    have hrest : rest = [] := by
      cases rest with
      | nil => rfl
      | cons b t => simp at hlen
    subst hrest
    subst hr
    refine ⟨videoGC c st (resolveRng seed entropy) ⟨0, "euler", num_steps⟩
      vi prompt negative_prompt cfg_strength, ?_, rfl, rfl, rfl, rfl, rfl,
      ⟨vi, hlv, rfl, rfl⟩, hgen⟩
    simp [videoResult]
  · intro h
    obtain ⟨a, rest, hgen, hmk, hsv, hr⟩ := text_to_audio_ok h
    have hlen := hbatch _ _ _ hgen
    simp only [textGC, List.length_cons, List.length_singleton] at hlen
    have hrest : rest = [] := by
      cases rest with
      | nil => rfl
      | cons b t => simp at hlen
    subst hrest
    subst hr
    refine ⟨textGC c st (resolveRng seed entropy) ⟨0, "euler", num_steps⟩
      prompt negative_prompt cfg_strength duration, ?_, rfl, rfl, rfl, rfl,
      rfl, rfl, rfl, hgen⟩
    simp [textResult]

/-- Witness for C7: the concrete fixture generator returns one waveform
per prompt, and the generate call of the concrete text run has the contract
shape. -/
theorem C7_generate_call_shape_witness :
    text_to_audio testCollab testShared 0 testNow "p" "music" 3 25 4 8 =
      .ok testTextRes ∧
    (∃ gc, Event.generateEv gc ∈ testTextRes.trace ∧
      gc.fm = ⟨0, "euler", 25⟩ ∧
      gc.text = ["p"] ∧ gc.negative_text = ["music"] ∧
      gc.cfg_strength = 4 ∧
      gc.rng = resolveRng 3 0 ∧
      gc.clip_frames = none ∧ gc.sync_frames = none ∧
      testCollab.generate gc testShared.feature_utils =
        .ok [testTextRes.audio]) :=
  ⟨by rfl,
    (C7_generate_call_shape testCollab testShared 0 testNow "v.mp4" "p"
      "music" 3 25 4 8 testVideoRes testTextRes
      (fun gc fu audios hg => by
        simp only [testCollab] at hg
        injection hg with h'
        rw [← h']
        simp)).2 (by rfl)⟩

/-- Claim C8: neither handler contains recovery, retry, or partial-result
logic — whichever collaborator fails first (video decode, generation,
directory creation, or artifact write), its error propagates unmodified as
the handler outcome, aborting the request; in particular a decode
failure surfaces as that error rather than as a silent empty result. -/
theorem C8_errors_propagate (c : Collab) (st : Shared) (entropy : ℕ)
    (now : DateTime) (video prompt negative_prompt : String) (seed : ℤ)
    (num_steps : ℕ) (cfg_strength duration : ℚ) (e : Err) (vi : VideoInfo)
    (a : Waveform) (rest : List Waveform) :
    (c.load_video video duration = .error e →
      video_to_audio c st entropy now video prompt negative_prompt seed
        num_steps cfg_strength duration = .error e) ∧
    (c.load_video video duration = .ok vi →
      c.generate (videoGC c st (resolveRng seed entropy)
          ⟨0, "euler", num_steps⟩ vi prompt negative_prompt cfg_strength)
        st.feature_utils = .error e →
      video_to_audio c st entropy now video prompt negative_prompt seed
        num_steps cfg_strength duration = .error e) ∧
    (c.load_video video duration = .ok vi →
      c.generate (videoGC c st (resolveRng seed entropy)
          ⟨0, "euler", num_steps⟩ vi prompt negative_prompt cfg_strength)
        st.feature_utils = .ok (a :: rest) →
      c.mkdir st.output_dir true true = .error e →
      video_to_audio c st entropy now video prompt negative_prompt seed
        num_steps cfg_strength duration = .error e) ∧
    (c.load_video video duration = .ok vi →
      c.generate (videoGC c st (resolveRng seed entropy)
          ⟨0, "euler", num_steps⟩ vi prompt negative_prompt cfg_strength)
        st.feature_utils = .ok (a :: rest) →
      c.mkdir st.output_dir true true = .ok () →
      c.make_video vi (videoSavePath st now) a st.seq_cfg.sampling_rate
        = .error e →
      video_to_audio c st entropy now video prompt negative_prompt seed
        num_steps cfg_strength duration = .error e) ∧
    (c.generate (textGC c st (resolveRng seed entropy)
          ⟨0, "euler", num_steps⟩ prompt negative_prompt cfg_strength
          duration) st.feature_utils = .error e →
      text_to_audio c st entropy now prompt negative_prompt seed num_steps
        cfg_strength duration = .error e) ∧
    (c.generate (textGC c st (resolveRng seed entropy)
          ⟨0, "euler", num_steps⟩ prompt negative_prompt cfg_strength
          duration) st.feature_utils = .ok (a :: rest) →
      c.mkdir st.output_dir true true = .error e →
      text_to_audio c st entropy now prompt negative_prompt seed num_steps
        cfg_strength duration = .error e) ∧
    (c.generate (textGC c st (resolveRng seed entropy)
          ⟨0, "euler", num_steps⟩ prompt negative_prompt cfg_strength
          duration) st.feature_utils = .ok (a :: rest) →
      c.mkdir st.output_dir true true = .ok () →
      c.save_audio (audioSavePath st now) a st.seq_cfg.sampling_rate
        = .error e →
      text_to_audio c st entropy now prompt negative_prompt seed num_steps
        cfg_strength duration = .error e) := by
  refine ⟨?_, ?_, ?_, ?_, ?_, ?_, ?_⟩
  · intro h1
    simp [video_to_audio, h1]
  · intro h1 h2
    simp [video_to_audio, h1, h2]
  · intro h1 h2 h3
    simp [video_to_audio, h1, h2, h3]
  · intro h1 h2 h3 h4
    simp [video_to_audio, h1, h2, h3, h4]
  · intro h1
    simp [text_to_audio, h1]
  · intro h1 h2
    simp [text_to_audio, h1, h2]
  · intro h1 h2 h3
    simp [text_to_audio, h1, h2, h3]

/-- A collaborator whose decoder always fails, to witness propagation. -/
def failCollab : Collab :=
  { testCollab with
    load_video := fun _ _ => .error (.decodeError "bad container") }

/-- Witness for C8: a decode failure surfaces unmodified from
`video_to_audio` on a concrete run. -/
theorem C8_errors_propagate_witness :
    failCollab.load_video "v.mp4" 8 = .error (.decodeError "bad container")
    ∧
    video_to_audio failCollab testShared 0 testNow "v.mp4" "p" "music" 3 25
      4 8 = .error (.decodeError "bad container") :=
  ⟨by rfl,
    (C8_errors_propagate failCollab testShared 0 testNow "v.mp4" "p"
      "music" 3 25 4 8 (.decodeError "bad container") ⟨5, 7, 3⟩ 0 []).1
      (by rfl)⟩

/-- Claim C9: among the process-wide shared state, a request mutates only
the duration in `SequenceConfig` and the derived sequence lengths pushed
into the net — the model weights, the feature-extraction network, the
sampling rate, and the output-directory path are unchanged by every
successful call to either handler. -/
theorem C9_frame_effect (c : Collab) (st : Shared) (entropy : ℕ)
    (now : DateTime) (video prompt negative_prompt : String) (seed : ℤ)
    (num_steps : ℕ) (cfg_strength duration : ℚ) (r s : RunResult) :
    (∀ vi, c.load_video video duration = .ok vi →
      video_to_audio c st entropy now video prompt negative_prompt seed
        num_steps cfg_strength duration = .ok r →
      r.shared.net.weights = st.net.weights ∧
      r.shared.feature_utils = st.feature_utils ∧
      r.shared.output_dir = st.output_dir ∧
      r.shared.seq_cfg.sampling_rate = st.seq_cfg.sampling_rate ∧
      r.shared.seq_cfg.duration = vi.duration_sec ∧
      r.shared.net = netAfterUpdate c st.net vi.duration_sec) ∧
    (text_to_audio c st entropy now prompt negative_prompt seed num_steps
        cfg_strength duration = .ok s →
      s.shared.net.weights = st.net.weights ∧
      s.shared.feature_utils = st.feature_utils ∧
      s.shared.output_dir = st.output_dir ∧
      s.shared.seq_cfg.sampling_rate = st.seq_cfg.sampling_rate ∧
      s.shared.seq_cfg.duration = duration ∧
      s.shared.net = netAfterUpdate c st.net duration) := by
  constructor
  · intro vi hlv h
    obtain ⟨vi', aw, rest, hlv', hgen, hmk, hmv, hr⟩ := video_to_audio_ok h
    have hvi : vi = vi' := by
      rw [hlv] at hlv'
      injection hlv'
    subst hvi
    subst hr
    exact ⟨rfl, rfl, rfl, rfl, rfl, rfl⟩
  · intro h
    obtain ⟨aw, rest, hgen, hmk, hsv, hr⟩ := text_to_audio_ok h
    subst hr
    exact ⟨rfl, rfl, rfl, rfl, rfl, rfl⟩

/-- Witness for C9 on the concrete fixture. -/
theorem C9_frame_effect_witness :
    video_to_audio testCollab testShared 0 testNow "v.mp4" "p" "music" 3 25
      4 8 = .ok testVideoRes ∧
    testVideoRes.shared.net.weights = testShared.net.weights ∧
    testVideoRes.shared.feature_utils = testShared.feature_utils ∧
    testVideoRes.shared.output_dir = testShared.output_dir ∧
    testVideoRes.shared.seq_cfg.sampling_rate =
      testShared.seq_cfg.sampling_rate ∧
    testVideoRes.shared.seq_cfg.duration =
      (⟨5, 7, 3⟩ : VideoInfo).duration_sec ∧
    testVideoRes.shared.net = netAfterUpdate testCollab testShared.net 3 :=
  ⟨by rfl,
    (C9_frame_effect testCollab testShared 0 testNow "v.mp4" "p" "music" 3
      25 4 8 testVideoRes testTextRes).1 ⟨5, 7, 3⟩ (by rfl) (by rfl)⟩

/-- Claim C10: `text_to_audio` uses the requested duration unchanged as the
generation duration — it is written into the shared sequence configuration
exactly as received, and the sequence lengths pushed into the net are
derived from it. -/
theorem C10_text_duration_unchanged (c : Collab) (st : Shared)
    (entropy : ℕ) (now : DateTime) (prompt negative_prompt : String)
    (seed : ℤ) (num_steps : ℕ) (cfg_strength duration : ℚ) (s : RunResult)
    (h : text_to_audio c st entropy now prompt negative_prompt seed
      num_steps cfg_strength duration = .ok s) :
    s.shared.seq_cfg.duration = duration ∧
    (∀ gc, Event.generateEv gc ∈ s.trace →
      gc.net = netAfterUpdate c st.net duration) := by
  obtain ⟨aw, rest, hgen, hmk, hsv, hr⟩ := text_to_audio_ok h
  subst hr
  refine ⟨rfl, ?_⟩
  intro gc hmem
  simp only [textResult, List.mem_cons, List.not_mem_nil, or_false] at hmem
  rcases hmem with h' | h' | h' | h' | h' <;> simp_all [textGC]

/-- Witness for C10: a text request for 8 seconds configures exactly 8. -/
theorem C10_text_duration_unchanged_witness :
    text_to_audio testCollab testShared 0 testNow "p" "music" 3 25 4 8 =
      .ok testTextRes ∧
    testTextRes.shared.seq_cfg.duration = 8 :=
  ⟨by rfl,
    (C10_text_duration_unchanged testCollab testShared 0 testNow "p"
      "music" 3 25 4 8 testTextRes (by rfl)).1⟩
